import Mathlib

/-!
Shallow embedding of `src/app.js` (SalesInsights): an Express service over a
SQLite `products` table, with four read endpoints (statistics, bar-chart,
pie-chart, combined-data) and a seeding routine (`initializeDatabase`).

Modelling conventions:
* a row of the `products` table is a `Product`; `price REAL` is embedded as `ℚ`
  (the SQL queries only compare and sum prices, never divide);
* the store is the list of rows currently in the table;
* SQL `SUM` over a set of rows is `none` when the set is empty (SQLite returns
  NULL), `some` of the sum otherwise; `COUNT(*)` is the length;
* `strftime('%m', dateOfSale)` on an ISO `YYYY-MM-DD...` string is the
  two-character substring at offset 5;
* JavaScript `parseInt` (radix unspecified) is `parseIntJS`: skip whitespace,
  optional sign, `0x`/`0X` switches to hexadecimal, longest prefix of digits,
  `none` (NaN) when no digit is found;
* an HTTP response is a `Resp`: `ok` (status 200 with a payload),
  `clientError` (status 400), `serverError` (status 500).
-/

namespace SalesInsights

/-- One row of the `products` table (see `createTableQuery` in `src/app.js`). -/
structure Product where
  id : Int
  title : String
  price : ℚ
  description : String
  category : String
  image : String
  sold : Bool
  dateOfSale : String
deriving DecidableEq, Repr

/-- SQLite `SUM` over a bag of rational values: NULL (`none`) on the empty bag. -/
def sqlSumQ (l : List ℚ) : Option ℚ :=
  if l.isEmpty then none else some l.sum

/-- SQLite `SUM` over a bag of natural values: NULL (`none`) on the empty bag. -/
def sqlSumN (l : List Nat) : Option Nat :=
  if l.isEmpty then none else some l.sum

/-- `strftime('%m', d)` for an ISO date-time string `YYYY-MM-DD...`: the
two-character month field at offset 5. -/
def strftimeMonth (d : String) : String :=
  ((d.toList.drop 5).take 2).asString

/-- JavaScript `String.prototype.padStart(2, "0")`. -/
def padStart2 (s : String) : String :=
  if s.length = 0 then "00" else if s.length = 1 then "0" ++ s else s

/-- The SQL parameter bound for a validated month `m`:
`inputMonth.toString().padStart(2, "0")`. -/
def monthParam (m : Int) : String :=
  padStart2 (toString m)

/-- The `WHERE strftime('%m', dateOfSale) = ?` filter shared by the three
aggregation queries. -/
def matching (store : List Product) (m : Int) : List Product :=
  store.filter (fun r => strftimeMonth r.dateOfSale == monthParam m)

/-- The result row of the `GET /statistics/:month` query. -/
structure Stats where
  totalSaleAmount : Option ℚ
  totalItems : Nat
  totalSoldItems : Option Nat
  totalUnsoldItems : Option Nat
deriving DecidableEq, Repr

/-- The `SELECT SUM(price), COUNT(*), SUM(CASE WHEN sold = 1 ...),
SUM(CASE WHEN sold = 0 ...) ... WHERE strftime('%m', dateOfSale) = ?` query of
`GET /statistics/:month` (`src/app.js` lines 113–123). -/
def statisticsQuery (store : List Product) (m : Int) : Stats :=
  let rows := matching store m
  { totalSaleAmount := sqlSumQ (rows.map (·.price))
    totalItems := rows.length
    totalSoldItems := sqlSumN (rows.map (fun r => if r.sold then 1 else 0))
    totalUnsoldItems := sqlSumN (rows.map (fun r => if r.sold then 0 else 1)) }

/-- The `CASE` expression of the bar-chart query (`src/app.js` lines 155–166),
arm for arm. -/
def priceRange (p : ℚ) : String :=
  if 0 ≤ p ∧ p ≤ 100 then "0 - 100"
  else if 100 < p ∧ p ≤ 200 then "101 - 200"
  else if 200 < p ∧ p ≤ 300 then "201 - 300"
  else if 300 < p ∧ p ≤ 400 then "301 - 400"
  else if 400 < p ∧ p ≤ 500 then "401 - 500"
  else if 500 < p ∧ p ≤ 600 then "501 - 600"
  else if 600 < p ∧ p ≤ 700 then "601 - 700"
  else if 700 < p ∧ p ≤ 800 then "701 - 800"
  else if 800 < p ∧ p ≤ 900 then "801 - 900"
  else "901-above"

/-- The `GROUP BY priceRange` query of `GET /bar-chart/:month`
(`src/app.js` lines 153–174): one `(priceRange, itemCount)` row per price range
present among the matching records. -/
def barChartQuery (store : List Product) (m : Int) : List (String × Nat) :=
  let rows := matching store m
  let labels := (rows.map (fun r => priceRange r.price)).dedup
  labels.map (fun l => (l, rows.countP (fun r => priceRange r.price == l)))

/-- The `GROUP BY category` query of `GET /pie-chart/:month`
(`src/app.js` lines 204–214): one `(category, itemCount)` row per category
present among the matching records. -/
def pieChartQuery (store : List Product) (m : Int) : List (String × Nat) :=
  let rows := matching store m
  let cats := (rows.map (·.category)).dedup
  cats.map (fun c => (c, rows.countP (fun r => r.category == c)))

/-- JavaScript whitespace skipped by `parseInt`. -/
def jsSpace (c : Char) : Bool :=
  c = ' ' || c = '\t' || c = '\n' || c = '\r' || c = '\x0b' || c = '\x0c'

/-- Value of a decimal digit string (most significant first). -/
def digitsToNat (ds : List Char) : Nat :=
  ds.foldl (fun a c => 10 * a + (c.toNat - '0'.toNat)) 0

/-- Hexadecimal digit test, as `parseInt` accepts after a `0x` prefix. -/
def isHexDigit (c : Char) : Bool :=
  c.isDigit || ('a' ≤ c && c ≤ 'f') || ('A' ≤ c && c ≤ 'F')

/-- Value of one hexadecimal digit. -/
def hexDigitVal (c : Char) : Nat :=
  if c.isDigit then c.toNat - '0'.toNat
  else if 'a' ≤ c && c ≤ 'f' then c.toNat - 'a'.toNat + 10
  else c.toNat - 'A'.toNat + 10

/-- Value of a hexadecimal digit string (most significant first). -/
def hexDigitsToNat (ds : List Char) : Nat :=
  ds.foldl (fun a c => 16 * a + hexDigitVal c) 0

/-- Sign prefix accepted by `parseInt`: returns the sign and the rest. -/
def readSign : List Char → Int × List Char
  | '-' :: rest => (-1, rest)
  | '+' :: rest => (1, rest)
  | cs => (1, cs)

/-- JavaScript `parseInt(s)` with unspecified radix: skip whitespace, optional
sign, `0x`/`0X` switches to base 16, then the longest prefix of digits; `none`
models `NaN` (no digit found). -/
def parseIntJS (s : String) : Option Int :=
  let cs := s.toList.dropWhile jsSpace
  let sc := readSign cs
  match sc.2 with
  | '0' :: 'x' :: rest =>
    let hs := rest.takeWhile isHexDigit
    if hs.isEmpty then none else some (sc.1 * (hexDigitsToNat hs : Int))
  | '0' :: 'X' :: rest =>
    let hs := rest.takeWhile isHexDigit
    if hs.isEmpty then none else some (sc.1 * (hexDigitsToNat hs : Int))
  | cs' =>
    let ds := cs'.takeWhile Char.isDigit
    if ds.isEmpty then none else some (sc.1 * (digitsToNat ds : Int))

/-- An HTTP response: 200 with a payload, 400 with an error message, or 500
with an error message. -/
inductive Resp (α : Type) where
  | ok : α → Resp α
  | clientError : String → Resp α
  | serverError : String → Resp α
deriving DecidableEq, Repr

/-- The 400 body shared by the three aggregation endpoints. -/
def invalidMonthMsg : String :=
  "Invalid month. Please provide a valid month between 1 and 12."

/-- The catch-all 500 body. -/
def internalErrorMsg : String := "Internal server error"

/-- The month validation shared by the three aggregation endpoints
(`parseInt`, then `isNaN(m) || m < 1 || m > 12`): `none` means the request is
rejected with 400 before any query runs. -/
def validateMonth (month : String) : Option Int :=
  match parseIntJS month with
  | none => none
  | some n => if n < 1 ∨ 12 < n then none else some n

/-- `GET /statistics/:month` (`src/app.js` lines 100–137). -/
def statisticsEndpoint (month : String) (store : List Product) : Resp Stats :=
  match validateMonth month with
  | none => .clientError invalidMonthMsg
  | some n => .ok (statisticsQuery store n)

/-- `GET /bar-chart/:month` (`src/app.js` lines 140–188). -/
def barChartEndpoint (month : String) (store : List Product) :
    Resp (List (String × Nat)) :=
  match validateMonth month with
  | none => .clientError invalidMonthMsg
  | some n => .ok (barChartQuery store n)

/-- `GET /pie-chart/:month` (`src/app.js` lines 191–228). -/
def pieChartEndpoint (month : String) (store : List Product) :
    Resp (List (String × Nat)) :=
  match validateMonth month with
  | none => .clientError invalidMonthMsg
  | some n => .ok (pieChartQuery store n)

/-- The combined payload `{statistics, barChart, pieChart}`. -/
structure CombinedData where
  statistics : Stats
  barChart : List (String × Nat)
  pieChart : List (String × Nat)
deriving DecidableEq, Repr

/-- `GET /combined-data/:month` (`src/app.js` lines 231–265): calls its own
three endpoints over HTTP with the raw `month` parameter; axios rejects any
non-2xx inner response, and the handler's `catch` turns any rejection into a
500 `Internal server error`. The handler performs no month validation of its
own. -/
def combinedDataEndpoint (month : String) (store : List Product) :
    Resp CombinedData :=
  match statisticsEndpoint month store with
  | .ok stats =>
    match barChartEndpoint month store with
    | .ok bar =>
      match pieChartEndpoint month store with
      | .ok pie => .ok ⟨stats, bar, pie⟩
      | _ => .serverError internalErrorMsg
    | _ => .serverError internalErrorMsg
  | _ => .serverError internalErrorMsg

/-- Does the table already hold a row with this id? (`id INTEGER PRIMARY KEY`
in `createTableQuery`.) -/
def hasId (store : List Product) (i : Int) : Bool :=
  store.any (fun r => r.id == i)

/-- One `INSERT INTO products ... VALUES (?, ...)`: the `PRIMARY KEY`
constraint makes the insert fail (row not added, other inserts unaffected —
each rejection is only logged) when a row with the same id exists. -/
def insertRow (store : List Product) (r : Product) : List Product :=
  if hasId store r.id then store else store ++ [r]

/-- The insert loop of `initializeDatabase` (`src/app.js` lines 44–77): one
independent insert per feed record. -/
def bulkInsert (data : List Product) (store : List Product) : List Product :=
  data.foldl insertRow store

/-- `initializeDatabase` (`src/app.js` lines 15–88): fetch the feed, create
the table if absent, insert every record. Every failure (fetch error, table
error, each insert error) is caught and only logged, so the function never
propagates an error; a fetch failure leaves the store unchanged. -/
def initializeDatabase (fetched : Except String (List Product))
    (store : List Product) : List Product :=
  match fetched with
  | .error _ => store
  | .ok data => bulkInsert data store

/-- The 200 body of `GET /initialize-database`. -/
def initializeOkMsg : String := "Database initialized with seed data"

/-- `GET /initialize-database` (`src/app.js` lines 94–97): `await
initializeDatabase(); res.json({message: ...})` — the response does not depend
on the ingestion outcome. Returns the response and the new store. -/
def initializeEndpoint (fetched : Except String (List Product))
    (store : List Product) : Resp String × List Product :=
  (.ok initializeOkMsg, initializeDatabase fetched store)

/-- The ten price buckets, as predicates on the price: the nine `WHEN` arms of
the bar-chart `CASE` expression, and the catch-all "901-above" bucket whose
range (for the non-negative prices the histogram partitions) is `900 < p`.
Indices ≥ 10 denote no bucket. -/
def bucketCond : Nat → ℚ → Prop
  | 0, p => 0 ≤ p ∧ p ≤ 100
  | 1, p => 100 < p ∧ p ≤ 200
  | 2, p => 200 < p ∧ p ≤ 300
  | 3, p => 300 < p ∧ p ≤ 400
  | 4, p => 400 < p ∧ p ≤ 500
  | 5, p => 500 < p ∧ p ≤ 600
  | 6, p => 600 < p ∧ p ≤ 700
  | 7, p => 700 < p ∧ p ≤ 800
  | 8, p => 800 < p ∧ p ≤ 900
  | 9, p => 900 < p
  | _, _ => False

/-- The label of each bucket, in the order of the `CASE` arms. -/
def bucketLabel : Nat → String
  | 0 => "0 - 100"
  | 1 => "101 - 200"
  | 2 => "201 - 300"
  | 3 => "301 - 400"
  | 4 => "401 - 500"
  | 5 => "501 - 600"
  | 6 => "601 - 700"
  | 7 => "701 - 800"
  | 8 => "801 - 900"
  | 9 => "901-above"
  | _ => ""

/-- First record of the spec's worked example: sold Electronics item, price
150, sold in March. Fields the example leaves open are filled arbitrarily. -/
def exRecord1 : Product :=
  ⟨1, "item1", 150, "", "Electronics", "", true, "2024-03-05"⟩

/-- Second record of the spec's worked example: unsold Books item, price 950,
dated in March. -/
def exRecord2 : Product :=
  ⟨2, "item2", 950, "", "Books", "", false, "2024-03-20"⟩

/-- The two-record store of the spec's worked example. -/
def exStore : List Product := [exRecord1, exRecord2]

/-! ### Helper lemmas -/

/-- A grouped count over rows equals a count in the list of group keys. -/
lemma countP_eq_count_map (rows : List Product) (f : Product → String)
    (l : String) :
    rows.countP (fun r => f r == l) = (rows.map f).count l := by
  rw [List.count, List.countP_map]
  rfl

/-- `GROUP BY` invariant: summing the per-group `COUNT(*)` over the distinct
keys recovers the number of rows. -/
lemma sum_group_counts (rows : List Product) (f : Product → String) :
    (((rows.map f).dedup).map
        (fun l => (l, rows.countP (fun r => f r == l))) |>.map Prod.snd).sum
      = rows.length := by
  rw [List.map_map]
  have h : (Prod.snd ∘ fun l => (l, rows.countP (fun r => f r == l)))
      = fun l => (rows.map f).count l := by
    funext l
    exact countP_eq_count_map rows f l
  rw [h]
  rw [List.sum_map_count_dedup_eq_length]
  exact List.length_map rows f

/-! ### Theorems for the claims -/

/-- C3: for every store contents and every valid month `m` (1 ≤ m ≤ 12), the
sum of the `itemCount` values over all buckets returned by the bar-chart query
equals `totalItems` of the statistics query on the same store snapshot. -/
theorem barChart_counts_sum_to_totalItems (store : List Product) (m : Int)
    (h1 : 1 ≤ m) (h2 : m ≤ 12) :
    ((barChartQuery store m).map Prod.snd).sum
      = (statisticsQuery store m).totalItems := by
  show (((( (matching store m).map (fun r => priceRange r.price)).dedup).map
      (fun l => (l, (matching store m).countP
        (fun r => priceRange r.price == l)))).map Prod.snd).sum
    = (matching store m).length
  exact sum_group_counts (matching store m) (fun r => priceRange r.price)

/-- Witness for C3 at the example store and month 3. -/
theorem barChart_counts_sum_to_totalItems_witness :
    ((barChartQuery exStore 3).map Prod.snd).sum
      = (statisticsQuery exStore 3).totalItems :=
  barChart_counts_sum_to_totalItems exStore 3 (by norm_num) (by norm_num)

/-- C4: for every store contents and every valid month `m` (1 ≤ m ≤ 12), the
sum of the `itemCount` values over all categories returned by the pie-chart
query equals `totalItems` of the statistics query on the same store
snapshot. -/
theorem pieChart_counts_sum_to_totalItems (store : List Product) (m : Int)
    (h1 : 1 ≤ m) (h2 : m ≤ 12) :
    ((pieChartQuery store m).map Prod.snd).sum
      = (statisticsQuery store m).totalItems := by
  show (((( (matching store m).map (fun r => r.category)).dedup).map
      (fun c => (c, (matching store m).countP
        (fun r => r.category == c)))).map Prod.snd).sum
    = (matching store m).length
  exact sum_group_counts (matching store m) (fun r => r.category)

/-- Witness for C4 at the example store and month 3. -/
theorem pieChart_counts_sum_to_totalItems_witness :
    ((pieChartQuery exStore 3).map Prod.snd).sum
      = (statisticsQuery exStore 3).totalItems :=
  pieChart_counts_sum_to_totalItems exStore 3 (by norm_num) (by norm_num)

/-- C2: on the two-record example store, month 3 yields the statistics row
`{totalSaleAmount: 1100, totalItems: 2, totalSoldItems: 1, totalUnsoldItems:
1}`, the histogram `{("101 - 200", 1), ("901-above", 1)}` and the breakdown
`{("Electronics", 1), ("Books", 1)}` (the latter two as unordered
collections). -/
theorem example_month3_aggregates :
    statisticsQuery exStore 3 = ⟨some 1100, 2, some 1, some 1⟩
    ∧ (barChartQuery exStore 3).Perm [("101 - 200", 1), ("901-above", 1)]
    ∧ (pieChartQuery exStore 3).Perm [("Electronics", 1), ("Books", 1)] := by
  refine ⟨?_, ?_, ?_⟩
  · have h : matching exStore 3 = [exRecord1, exRecord2] := by decide
    simp only [statisticsQuery, h]
    norm_num [sqlSumQ, sqlSumN, exRecord1, exRecord2]
  · rw [show barChartQuery exStore 3 = [("101 - 200", 1), ("901-above", 1)]
      from by decide]
  · rw [show pieChartQuery exStore 3 = [("Electronics", 1), ("Books", 1)]
      from by decide]

/-- The shared month validation rejects exactly the inputs the spec calls
invalid: unparseable strings and parsed values outside 1..12. -/
lemma validateMonth_invalid (month : String)
    (h : parseIntJS month = none
      ∨ ∃ n, parseIntJS month = some n ∧ (n < 1 ∨ 12 < n)) :
    validateMonth month = none := by
  rcases h with h | ⟨n, hn, hrange⟩
  · simp [validateMonth, h]
  · simp [validateMonth, hn, if_pos hrange]

/-- C5: for every month input that is non-numeric (`parseInt` yields `NaN`)
or parses outside 1..12, each of the three aggregation endpoints returns the
400 invalid-month error; the response does not depend on the store, so no
store access occurs. -/
theorem invalid_month_rejected_by_all_endpoints (month : String)
    (h : parseIntJS month = none
      ∨ ∃ n, parseIntJS month = some n ∧ (n < 1 ∨ 12 < n)) :
    ∀ store : List Product,
      statisticsEndpoint month store = .clientError invalidMonthMsg
      ∧ barChartEndpoint month store = .clientError invalidMonthMsg
      ∧ pieChartEndpoint month store = .clientError invalidMonthMsg := by
  have hv : validateMonth month = none := validateMonth_invalid month h
  intro store
  refine ⟨?_, ?_, ?_⟩ <;>
    simp [statisticsEndpoint, barChartEndpoint, pieChartEndpoint, hv]

/-- Witness for C5 at the out-of-range input "13" and the empty store. -/
theorem invalid_month_rejected_witness :
    statisticsEndpoint "13" [] = .clientError invalidMonthMsg
    ∧ barChartEndpoint "13" [] = .clientError invalidMonthMsg
    ∧ pieChartEndpoint "13" [] = .clientError invalidMonthMsg :=
  invalid_month_rejected_by_all_endpoints "13"
    (Or.inr ⟨13, by decide, Or.inr (by decide)⟩) []

/-- C8 counterexample: on the empty store the statistics query does succeed
with `totalItems = 0` and `totalSaleAmount` NULL, but the sold/unsold counters
are NULL as well (they are SQL `SUM`s), not 0 as the claim's stated convention
has them. -/
theorem empty_store_counters_are_null :
    (statisticsQuery [] 1).totalItems = 0
    ∧ (statisticsQuery [] 1).totalSaleAmount = none
    ∧ (statisticsQuery [] 1).totalSoldItems = none
    ∧ (statisticsQuery [] 1).totalSoldItems ≠ some 0
    ∧ (statisticsQuery [] 1).totalUnsoldItems ≠ some 0 := by decide

/-- C8 (amended): for every store snapshot and valid month with no matching
records, the statistics query succeeds with the well-defined empty result
`{totalSaleAmount: null, totalItems: 0, totalSoldItems: null,
totalUnsoldItems: null}` — all `SUM` aggregates NULL, `COUNT(*)` 0. -/
theorem empty_month_statistics (store : List Product) (m : Int)
    (hm1 : 1 ≤ m) (hm2 : m ≤ 12) (h : matching store m = []) :
    statisticsQuery store m = ⟨none, 0, none, none⟩ := by
  simp [statisticsQuery, h, sqlSumQ, sqlSumN]

/-- Witness for C8's amended theorem on the empty store and month 1. -/
theorem empty_month_statistics_witness :
    statisticsQuery [] 1 = ⟨none, 0, none, none⟩ :=
  empty_month_statistics [] 1 (by norm_num) (by norm_num) rfl

/-- C6 counterexample: for the invalid month "13", `GET /combined-data/13`
responds with the 500 `Internal server error`, not with the 400 invalid-month
error the claim requires. -/
theorem combined_invalid_month_returns_500 :
    combinedDataEndpoint "13" [] = .serverError internalErrorMsg
    ∧ combinedDataEndpoint "13" [] ≠ .clientError invalidMonthMsg := by decide

/-- C6 (amended): the combined handler performs no month validation of its
own; for every invalid month the inner statistics request is rejected with
the 400 invalid-month error before touching the store, axios raises on that
non-2xx status, and the handler's catch converts it into a 500
`Internal server error` — so no sub-aggregation runs, but the combined
response is a 500, not the 400 `InvalidMonth`. -/
theorem combined_invalid_month_catch (month : String)
    (h : parseIntJS month = none
      ∨ ∃ n, parseIntJS month = some n ∧ (n < 1 ∨ 12 < n)) :
    ∀ store : List Product,
      statisticsEndpoint month store = .clientError invalidMonthMsg
      ∧ combinedDataEndpoint month store = .serverError internalErrorMsg := by
  have hv : validateMonth month = none := validateMonth_invalid month h
  intro store
  constructor
  · simp [statisticsEndpoint, hv]
  · simp [combinedDataEndpoint, statisticsEndpoint, hv]

/-- Witness for C6's amended theorem at the input "13" and the empty store. -/
theorem combined_invalid_month_catch_witness :
    statisticsEndpoint "13" [] = .clientError invalidMonthMsg
    ∧ combinedDataEndpoint "13" [] = .serverError internalErrorMsg :=
  combined_invalid_month_catch "13"
    (Or.inr ⟨13, by decide, Or.inr (by decide)⟩) []

/-- C7 counterexample: when the feed fetch fails, `GET /initialize-database`
still responds 200 with the success confirmation, not a 500 server error. -/
theorem initialize_failure_still_confirms :
    (initializeEndpoint (.error "feed unreachable") []).1
      = .ok initializeOkMsg
    ∧ (initializeEndpoint (.error "feed unreachable") []).1
      ≠ .serverError internalErrorMsg := by decide

/-- C7 (amended): `GET /initialize-database` responds 200 with the
confirmation message regardless of the ingestion outcome —
`initializeDatabase` catches every failure internally and only logs it, so
the route never surfaces a 500. -/
theorem initialize_always_confirms
    (fetched : Except String (List Product)) (store : List Product) :
    (initializeEndpoint fetched store).1 = .ok initializeOkMsg := rfl

/-- C9: a record with a negative price falls through every `WHEN` arm of the
`CASE` expression into the `ELSE` branch, so it is classified "901-above";
when such a record matches the requested month it is counted in the
"901-above" row of the bar-chart result. -/
theorem negative_price_in_catch_all_bucket (r : Product) (m : Int)
    (store : List Product) (hr : r ∈ store)
    (hm : (strftimeMonth r.dateOfSale == monthParam m) = true)
    (hp : r.price < 0) :
    priceRange r.price = "901-above"
    ∧ ∃ c, ("901-above", c) ∈ barChartQuery store m ∧ 1 ≤ c := by
  have n0 : ¬((0 : ℚ) ≤ r.price) := not_le.2 hp
  have n1 : ¬((100 : ℚ) < r.price) := by linarith
  have n2 : ¬((200 : ℚ) < r.price) := by linarith
  have n3 : ¬((300 : ℚ) < r.price) := by linarith
  have n4 : ¬((400 : ℚ) < r.price) := by linarith
  have n5 : ¬((500 : ℚ) < r.price) := by linarith
  have n6 : ¬((600 : ℚ) < r.price) := by linarith
  have n7 : ¬((700 : ℚ) < r.price) := by linarith
  have n8 : ¬((800 : ℚ) < r.price) := by linarith
  have hlabel : priceRange r.price = "901-above" := by
    simp [priceRange, n0, n1, n2, n3, n4, n5, n6, n7, n8]
  have hrow : r ∈ matching store m := List.mem_filter.2 ⟨hr, hm⟩
  refine ⟨hlabel, ?_⟩
  simp only [barChartQuery]
  refine ⟨(matching store m).countP
    (fun x => priceRange x.price == "901-above"), ?_, ?_⟩
  · exact List.mem_map.2 ⟨"901-above",
      List.mem_dedup.2 (List.mem_map.2 ⟨r, hrow, hlabel⟩), rfl⟩
  · exact List.countP_pos_iff.2 ⟨r, hrow, by simp [hlabel]⟩

/-- A record with a negative price, for the C9 witness. -/
def negRecord : Product :=
  ⟨7, "neg", -5, "", "Misc", "", true, "2024-03-05"⟩

/-- Witness for C9: the negative-priced `negRecord` in a one-record store,
month 3. -/
theorem negative_price_in_catch_all_bucket_witness :
    priceRange negRecord.price = "901-above"
    ∧ ∃ c, ("901-above", c) ∈ barChartQuery [negRecord] 3 ∧ 1 ≤ c :=
  negative_price_in_catch_all_bucket negRecord 3 [negRecord]
    (by decide) (by decide) (by decide)

/-- An id present in the store stays present through any insert. -/
lemma hasId_insertRow (store : List Product) (d : Product) (i : Int)
    (h : hasId store i = true) : hasId (insertRow store d) i = true := by
  unfold insertRow
  split
  · exact h
  · simp only [hasId, List.any_append]
    simp only [hasId] at h
    simp [h]

/-- An id present in the store stays present through a whole bulk insert. -/
lemma hasId_bulkInsert (data : List Product) (store : List Product) (i : Int)
    (h : hasId store i = true) : hasId (bulkInsert data store) i = true := by
  induction data generalizing store with
  | nil => exact h
  | cons d ds ih => exact ih (insertRow store d) (hasId_insertRow store d i h)

/-- After inserting a record the store holds its id, whether or not the
insert succeeded. -/
lemma hasId_insertRow_self (store : List Product) (d : Product) :
    hasId (insertRow store d) d.id = true := by
  unfold insertRow
  split
  · assumption
  · simp [hasId, List.any_append]

/-- After a bulk insert, the id of every feed record is present. -/
lemma hasId_bulkInsert_of_mem (data : List Product) (store : List Product)
    (r : Product) (hr : r ∈ data) :
    hasId (bulkInsert data store) r.id = true := by
  induction data generalizing store with
  | nil => cases hr
  | cons d ds ih =>
    rcases List.mem_cons.1 hr with rfl | hmem
    · exact hasId_bulkInsert ds (insertRow store r) r.id
        (hasId_insertRow_self store r)
    · exact ih (insertRow store d) hmem

/-- A bulk insert whose every record's id is already present changes
nothing: every individual insert fails on the primary key. -/
lemma bulkInsert_noop (data : List Product) (store : List Product)
    (h : ∀ r ∈ data, hasId store r.id = true) :
    bulkInsert data store = store := by
  induction data with
  | nil => rfl
  | cons d ds ih =>
    show bulkInsert ds (insertRow store d) = store
    rw [show insertRow store d = store from if_pos (h d (List.mem_cons_self d ds))]
    exact ih (fun r hr => h r (List.mem_cons_of_mem d hr))

/-- One insert keeps the ids of the store duplicate-free. -/
lemma insertRow_nodup (store : List Product) (d : Product)
    (h : (store.map Product.id).Nodup) :
    ((insertRow store d).map Product.id).Nodup := by
  unfold insertRow
  split
  · exact h
  · next hfalse =>
    rw [List.map_append]
    simp only [List.map_cons, List.map_nil]
    rw [List.nodup_append]
    refine ⟨h, List.nodup_singleton _, ?_⟩
    intro x hx hmem
    simp only [List.mem_singleton] at hmem
    subst hmem
    rcases List.mem_map.1 hx with ⟨s, hs, hsid⟩
    exact hfalse (by simp only [hasId, List.any_eq_true]
                     exact ⟨s, hs, by simp [hsid]⟩)

/-- A bulk insert keeps the ids of the store duplicate-free. -/
lemma bulkInsert_nodup (data : List Product) (store : List Product)
    (h : (store.map Product.id).Nodup) :
    ((bulkInsert data store).map Product.id).Nodup := by
  induction data generalizing store with
  | nil => exact h
  | cons d ds ih => exact ih (insertRow store d) (insertRow_nodup store d h)

/-- C10: because `id` is the `PRIMARY KEY` of `products`, ingestion never
creates two rows with the same id (ids stay duplicate-free), and re-running
ingestion on an unchanged feed makes every insert fail individually and
leaves the store — in particular the record count — unchanged. -/
theorem ingestion_primary_key_invariant (data store : List Product)
    (h : (store.map Product.id).Nodup) :
    ((bulkInsert data store).map Product.id).Nodup
    ∧ bulkInsert data (bulkInsert data store) = bulkInsert data store
    ∧ (bulkInsert data (bulkInsert data store)).length
        = (bulkInsert data store).length := by
  have hrerun : bulkInsert data (bulkInsert data store) = bulkInsert data store :=
    bulkInsert_noop data (bulkInsert data store)
      (fun r hr => hasId_bulkInsert_of_mem data store r hr)
  exact ⟨bulkInsert_nodup data store h, hrerun, by rw [hrerun]⟩

/-- Witness for C10: a two-record feed (with a duplicated id inside the feed)
ingested into the empty store. -/
theorem ingestion_primary_key_invariant_witness :
    ((bulkInsert [exRecord1, exRecord2, exRecord1] []).map Product.id).Nodup
    ∧ bulkInsert [exRecord1, exRecord2, exRecord1]
        (bulkInsert [exRecord1, exRecord2, exRecord1] [])
      = bulkInsert [exRecord1, exRecord2, exRecord1] []
    ∧ (bulkInsert [exRecord1, exRecord2, exRecord1]
        (bulkInsert [exRecord1, exRecord2, exRecord1] [])).length
      = (bulkInsert [exRecord1, exRecord2, exRecord1] []).length :=
  ingestion_primary_key_invariant [exRecord1, exRecord2, exRecord1] []
    (by decide)

/-- Numeric bounds carried by each bucket: every bucket index is ≤ 9, buckets
past the first start strictly above `100·i`, and buckets before the last end
at `100·(i+1)`. -/
lemma bucketCond_facts (i : ℕ) (p : ℚ) (h : bucketCond i p) :
    i ≤ 9 ∧ (1 ≤ i → (100 : ℚ) * i < p) ∧ (i ≤ 8 → p ≤ (100 : ℚ) * (i + 1)) := by
  match i, h with
  | 0, h =>
    exact ⟨by norm_num, fun hc => absurd hc (by norm_num),
      fun _ => by have h2 := h.2; push_cast; linarith⟩
  | 1, h =>
    exact ⟨by norm_num, fun _ => by have h1 := h.1; push_cast; linarith,
      fun _ => by have h2 := h.2; push_cast; linarith⟩
  | 2, h =>
    exact ⟨by norm_num, fun _ => by have h1 := h.1; push_cast; linarith,
      fun _ => by have h2 := h.2; push_cast; linarith⟩
  | 3, h =>
    exact ⟨by norm_num, fun _ => by have h1 := h.1; push_cast; linarith,
      fun _ => by have h2 := h.2; push_cast; linarith⟩
  | 4, h =>
    exact ⟨by norm_num, fun _ => by have h1 := h.1; push_cast; linarith,
      fun _ => by have h2 := h.2; push_cast; linarith⟩
  | 5, h =>
    exact ⟨by norm_num, fun _ => by have h1 := h.1; push_cast; linarith,
      fun _ => by have h2 := h.2; push_cast; linarith⟩
  | 6, h =>
    exact ⟨by norm_num, fun _ => by have h1 := h.1; push_cast; linarith,
      fun _ => by have h2 := h.2; push_cast; linarith⟩
  | 7, h =>
    exact ⟨by norm_num, fun _ => by have h1 := h.1; push_cast; linarith,
      fun _ => by have h2 := h.2; push_cast; linarith⟩
  | 8, h =>
    exact ⟨by norm_num, fun _ => by have h1 := h.1; push_cast; linarith,
      fun _ => by have h2 := h.2; push_cast; linarith⟩
  | 9, h =>
    exact ⟨by norm_num, fun _ => by
        have h9 : (900 : ℚ) < p := h
        push_cast
        linarith,
      fun hc => absurd hc (by norm_num)⟩
  | n + 10, h => exact h.elim

/-- No price satisfies two distinct bucket conditions. -/
lemma bucketCond_unique (p : ℚ) (i j : ℕ)
    (hi : bucketCond i p) (hj : bucketCond j p) : i = j := by
  have key : ∀ a b : ℕ, a < b → bucketCond a p → bucketCond b p → False := by
    intro a b hab ha hb
    obtain ⟨ha9, _, hahi⟩ := bucketCond_facts a p ha
    obtain ⟨hb9, hblo, _⟩ := bucketCond_facts b p hb
    have h1 : (100 : ℚ) * b < p := hblo (by omega)
    have h2 : p ≤ (100 : ℚ) * (a + 1) := hahi (by omega)
    have h3 : ((a : ℚ) + 1) ≤ (b : ℚ) := by exact_mod_cast hab
    nlinarith
  rcases Nat.lt_trichotomy i j with hlt | heq | hlt
  · exact (key i j hlt hi hj).elim
  · exact heq
  · exact (key j i hlt hj hi).elim

/-- C1: for every non-negative price, exactly one of the ten bucket
conditions holds, and the `CASE` expression labels the price with exactly
that bucket's label; each boundary price 100, 200, ..., 900 falls into the
lower bucket, and 101 into "101 - 200". -/
theorem priceRange_partitions_nonneg (p : ℚ) (hp : 0 ≤ p) :
    (∃! i : ℕ, bucketCond i p)
    ∧ (∀ i : ℕ, bucketCond i p → priceRange p = bucketLabel i)
    ∧ priceRange 100 = "0 - 100" ∧ priceRange 200 = "101 - 200"
    ∧ priceRange 300 = "201 - 300" ∧ priceRange 400 = "301 - 400"
    ∧ priceRange 500 = "401 - 500" ∧ priceRange 600 = "501 - 600"
    ∧ priceRange 700 = "601 - 700" ∧ priceRange 800 = "701 - 800"
    ∧ priceRange 900 = "801 - 900" ∧ priceRange 101 = "101 - 200" := by
  have key : ∃ k : ℕ, bucketCond k p ∧ priceRange p = bucketLabel k := by
    rcases le_or_lt p 100 with h1 | h1
    · exact ⟨0, ⟨hp, h1⟩, by simp [priceRange, bucketLabel, hp, h1]⟩
    have na1 : ¬(p ≤ 100) := not_le.2 h1
    rcases le_or_lt p 200 with h2 | h2
    · exact ⟨1, ⟨h1, h2⟩, by simp [priceRange, bucketLabel, hp, na1, h1, h2]⟩
    have na2 : ¬(p ≤ 200) := not_le.2 h2
    rcases le_or_lt p 300 with h3 | h3
    · exact ⟨2, ⟨h2, h3⟩,
        by simp [priceRange, bucketLabel, hp, na1, na2, h2, h3]⟩
    have na3 : ¬(p ≤ 300) := not_le.2 h3
    rcases le_or_lt p 400 with h4 | h4
    · exact ⟨3, ⟨h3, h4⟩,
        by simp [priceRange, bucketLabel, hp, na1, na2, na3, h3, h4]⟩
    have na4 : ¬(p ≤ 400) := not_le.2 h4
    rcases le_or_lt p 500 with h5 | h5
    · exact ⟨4, ⟨h4, h5⟩,
        by simp [priceRange, bucketLabel, hp, na1, na2, na3, na4, h4, h5]⟩
    have na5 : ¬(p ≤ 500) := not_le.2 h5
    rcases le_or_lt p 600 with h6 | h6
    · exact ⟨5, ⟨h5, h6⟩,
        by simp [priceRange, bucketLabel, hp, na1, na2, na3, na4, na5, h5, h6]⟩
    have na6 : ¬(p ≤ 600) := not_le.2 h6
    rcases le_or_lt p 700 with h7 | h7
    · exact ⟨6, ⟨h6, h7⟩,
        by simp [priceRange, bucketLabel, hp, na1, na2, na3, na4, na5, na6,
          h6, h7]⟩
    have na7 : ¬(p ≤ 700) := not_le.2 h7
    rcases le_or_lt p 800 with h8 | h8
    · exact ⟨7, ⟨h7, h8⟩,
        by simp [priceRange, bucketLabel, hp, na1, na2, na3, na4, na5, na6,
          na7, h7, h8]⟩
    have na8 : ¬(p ≤ 800) := not_le.2 h8
    rcases le_or_lt p 900 with h9 | h9
    · exact ⟨8, ⟨h8, h9⟩,
        by simp [priceRange, bucketLabel, hp, na1, na2, na3, na4, na5, na6,
          na7, na8, h8, h9]⟩
    have na9 : ¬(p ≤ 900) := not_le.2 h9
    exact ⟨9, h9,
      by simp [priceRange, bucketLabel, hp, na1, na2, na3, na4, na5, na6,
        na7, na8, na9]⟩
  obtain ⟨k, hk, hpr⟩ := key
  refine ⟨⟨k, hk, fun y hy => bucketCond_unique p y k hy hk⟩,
    fun i hi => ?_, by decide, by decide, by decide, by decide, by decide,
    by decide, by decide, by decide, by decide, by decide⟩
  rw [bucketCond_unique p i k hi hk]
  exact hpr

/-- Witness for C1 at the price 150: bucket 1 ("101 - 200") uniquely
applies. -/
theorem priceRange_partitions_nonneg_witness :
    (∃! i : ℕ, bucketCond i 150)
    ∧ (∀ i : ℕ, bucketCond i 150 → priceRange 150 = bucketLabel i)
    ∧ priceRange 100 = "0 - 100" ∧ priceRange 200 = "101 - 200"
    ∧ priceRange 300 = "201 - 300" ∧ priceRange 400 = "301 - 400"
    ∧ priceRange 500 = "401 - 500" ∧ priceRange 600 = "501 - 600"
    ∧ priceRange 700 = "601 - 700" ∧ priceRange 800 = "701 - 800"
    ∧ priceRange 900 = "801 - 900" ∧ priceRange 101 = "101 - 200" :=
  priceRange_partitions_nonneg 150 (by norm_num)

end SalesInsights
